import Mathlib

/-!
Verification development for the taurus-pro-opentelemetry repository.

The Go sources under pkg/otelemetry (options.go, provider.go,
otel_mysql.go, otel_redis.go) and the gRPC example interceptor
(example/grpc/main.go) are shallowly embedded below:

* `time.Duration` values are modelled as `Int` nanoseconds;
* the `float64` sampling ratio is modelled as `Rat` (the field is only
  stored and compared, never computed with, so exact rationals are a
  faithful model of the stored value);
* Go nil-pointer dereferences (run-time panics) are modelled by the
  `GoPanic` error of an `Except` result;
* `ExportProtocol` is a Go string type, so it is modelled as `String`;
* fresh heap allocation of exporters and SDK tracer providers is
  modelled by a world record handing out numeric identities, so that
  "same instance" and "how many exporters were created" are statable.
-/

namespace TaurusOtel

/-! ## options.go -/

/-- Go constant ProtocolGRPC of the string type ExportProtocol. -/
def ProtocolGRPC : String := "grpc"

/-- Go constant ProtocolHTTP of the string type ExportProtocol. -/
def ProtocolHTTP : String := "http"

/-- Go constant ProtocolJSON of the string type ExportProtocol. -/
def ProtocolJSON : String := "json"

/-- Nanoseconds in one second; Go time.Second as an Int of nanoseconds. -/
def goSecond : Int := 1000000000

/-- The options struct of options.go: every configurable parameter. -/
structure Options where
  serviceName : String
  serviceVersion : String
  environment : String
  protocol : String
  endpoint : String
  insecure : Bool
  timeout : Int
  samplingRatio : Rat
  batchTimeout : Int
  exportTimeout : Int
  maxExportBatchSize : Int
  maxQueueSize : Int
deriving Repr, DecidableEq

/-- defaultOptions of options.go: the default-valued settings record. -/
def defaultOptions : Options :=
  { serviceName := "unknown-service"
    serviceVersion := "1.0.0"
    environment := "development"
    protocol := ProtocolGRPC
    endpoint := "localhost:4317"
    insecure := true
    timeout := 5 * goSecond
    samplingRatio := 1
    batchTimeout := 5 * goSecond
    exportTimeout := 30 * goSecond
    maxExportBatchSize := 512
    maxQueueSize := 2048 }

/-- The exported option constructors of options.go. Each Go With*
function returns a closure mutating one field; the closure bodies are
given by `applyOption` below. -/
inductive GoOption where
  | WithServiceName (name : String)
  | WithServiceVersion (version : String)
  | WithEnvironment (env : String)
  | WithEndpoint (endpoint : String)
  | WithInsecure (insecure : Bool)
  | WithTimeout (timeout : Int)
  | WithSamplingRatio (ratio : Rat)
  | WithBatchTimeout (timeout : Int)
  | WithExportTimeout (timeout : Int)
  | WithMaxExportBatchSize (size : Int)
  | WithMaxQueueSize (size : Int)
  | WithExportProtocol (protocol : String)
deriving Repr, DecidableEq

/-- The body of each With* closure of options.go: each sets exactly
one field of the options record. -/
def applyOption : GoOption → Options → Options
  | .WithServiceName name, o => { o with serviceName := name }
  | .WithServiceVersion version, o => { o with serviceVersion := version }
  | .WithEnvironment env, o => { o with environment := env }
  | .WithEndpoint endpoint, o => { o with endpoint := endpoint }
  | .WithInsecure insecure, o => { o with insecure := insecure }
  | .WithTimeout timeout, o => { o with timeout := timeout }
  | .WithSamplingRatio ratio, o => { o with samplingRatio := ratio }
  | .WithBatchTimeout timeout, o => { o with batchTimeout := timeout }
  | .WithExportTimeout timeout, o => { o with exportTimeout := timeout }
  | .WithMaxExportBatchSize size, o => { o with maxExportBatchSize := size }
  | .WithMaxQueueSize size, o => { o with maxQueueSize := size }
  | .WithExportProtocol protocol, o => { o with protocol := protocol }

/-- The option-application loop at the top of NewOTelProvider
(provider.go lines 55-58): start from defaultOptions and apply the
given options in order. -/
def buildOptions (opts : List GoOption) : Options :=
  opts.foldl (fun o f => applyOption f o) defaultOptions

/-- Names of the twelve fields of the options record, used to state
the last-writer-wins property once for all fields. -/
inductive Field where
  | serviceName | serviceVersion | environment | protocol
  | endpoint | insecure | timeout | samplingRatio
  | batchTimeout | exportTimeout | maxExportBatchSize | maxQueueSize
deriving Repr, DecidableEq

/-- Untyped view of one field value of the options record. -/
inductive FieldVal where
  | ofString (s : String)
  | ofBool (b : Bool)
  | ofInt (n : Int)
  | ofRat (q : Rat)
deriving Repr, DecidableEq

/-- Read one field of the options record as an untyped value. -/
def getField (o : Options) : Field → FieldVal
  | .serviceName => .ofString o.serviceName
  | .serviceVersion => .ofString o.serviceVersion
  | .environment => .ofString o.environment
  | .protocol => .ofString o.protocol
  | .endpoint => .ofString o.endpoint
  | .insecure => .ofBool o.insecure
  | .timeout => .ofInt o.timeout
  | .samplingRatio => .ofRat o.samplingRatio
  | .batchTimeout => .ofInt o.batchTimeout
  | .exportTimeout => .ofInt o.exportTimeout
  | .maxExportBatchSize => .ofInt o.maxExportBatchSize
  | .maxQueueSize => .ofInt o.maxQueueSize

/-- The single field an option constructor writes. -/
def GoOption.targetField : GoOption → Field
  | .WithServiceName _ => .serviceName
  | .WithServiceVersion _ => .serviceVersion
  | .WithEnvironment _ => .environment
  | .WithEndpoint _ => .endpoint
  | .WithInsecure _ => .insecure
  | .WithTimeout _ => .timeout
  | .WithSamplingRatio _ => .samplingRatio
  | .WithBatchTimeout _ => .batchTimeout
  | .WithExportTimeout _ => .exportTimeout
  | .WithMaxExportBatchSize _ => .maxExportBatchSize
  | .WithMaxQueueSize _ => .maxQueueSize
  | .WithExportProtocol _ => .protocol

/-- The value an option constructor writes to its target field. -/
def GoOption.writtenValue : GoOption → FieldVal
  | .WithServiceName name => .ofString name
  | .WithServiceVersion version => .ofString version
  | .WithEnvironment env => .ofString env
  | .WithEndpoint endpoint => .ofString endpoint
  | .WithInsecure insecure => .ofBool insecure
  | .WithTimeout timeout => .ofInt timeout
  | .WithSamplingRatio ratio => .ofRat ratio
  | .WithBatchTimeout timeout => .ofInt timeout
  | .WithExportTimeout timeout => .ofInt timeout
  | .WithMaxExportBatchSize size => .ofInt size
  | .WithMaxQueueSize size => .ofInt size
  | .WithExportProtocol protocol => .ofString protocol

/-- Value written to field f by the last option of the list touching
f, starting from a fallback value for the case no option touches f. -/
def lastWritten (f : Field) (opts : List GoOption) (fallback : FieldVal) : FieldVal :=
  opts.foldl (fun acc d => if d.targetField = f then d.writtenValue else acc) fallback

theorem getField_applyOption (d : GoOption) (o : Options) (f : Field) :
    getField (applyOption d o) f =
      if d.targetField = f then d.writtenValue else getField o f := by
  cases d <;> cases f <;> rfl

theorem getField_foldl (opts : List GoOption) (o : Options) (f : Field) :
    getField (opts.foldl (fun o d => applyOption d o) o) f =
      lastWritten f opts (getField o f) := by
  induction opts generalizing o with
  | nil => rfl
  | cons d rest ih =>
      simp only [List.foldl_cons, lastWritten, ih, getField_applyOption]

/-! ## provider.go -/

/-- Modelled Go run-time fault (nil-pointer dereference panic). -/
inductive GoPanic where
  | nilPointerDereference
deriving Repr, DecidableEq

/-- Transport kind of the exporter built by createExporter. -/
inductive ExporterKind where
  | grpcTransport
  | httpTransport
deriving Repr, DecidableEq

/-- Configuration of the OTLP exporter assembled by createExporter
from the option list before handing it to the OTLP constructors. -/
structure ExporterConfig where
  kind : ExporterKind
  endpoint : String
  insecure : Bool
  timeout : Option Int
  jsonContentTypeHeader : Bool
deriving Repr, DecidableEq

/-- createExporter of provider.go: selects the transport from the
protocol string, applies the endpoint default, the insecure flag, the
positive-timeout option and, for the json protocol, the JSON
content-type header; any other protocol string is a construction
error. -/
def createExporter (o : Options) : Except String ExporterConfig :=
  let endpoint := if o.endpoint = "" then "localhost:4317" else o.endpoint
  if o.protocol = ProtocolGRPC then
    let endpoint := if endpoint = "" then "localhost:4317" else endpoint
    .ok { kind := .grpcTransport
          endpoint := endpoint
          insecure := o.insecure
          timeout := if 0 < o.timeout then some o.timeout else none
          jsonContentTypeHeader := false }
  else if o.protocol = ProtocolHTTP ∨ o.protocol = ProtocolJSON then
    let endpoint := if endpoint = "" then "localhost:4318" else endpoint
    .ok { kind := .httpTransport
          endpoint := endpoint
          insecure := o.insecure
          timeout := if 0 < o.timeout then some o.timeout else none
          jsonContentTypeHeader := o.protocol = ProtocolJSON }
  else
    .error ("unsupported protocol: " ++ o.protocol)

/-- Resource descriptor built by createResource of provider.go. -/
structure Resource where
  serviceName : String
  serviceVersion : String
  environment : String
deriving Repr, DecidableEq

/-- createResource of provider.go: embeds service name, service
version and environment; its construction never fails in this model
(resource.New with WithAttributes only). -/
def createResource (o : Options) : Except String Resource :=
  .ok { serviceName := o.serviceName
        serviceVersion := o.serviceVersion
        environment := o.environment }

/-- World of heap allocations made through the tracing SDK: numeric
identities stand for distinct heap objects, so that instance identity
and the number of exporters ever created are statable. -/
structure ProvWorld where
  nextId : Nat
  exportersCreated : Nat
  globalTracerProvider : Option Nat
  globalPropagatorSet : Bool
deriving Repr, DecidableEq

/-- World before any provider construction. -/
def initialProvWorld : ProvWorld :=
  { nextId := 0
    exportersCreated := 0
    globalTracerProvider := none
    globalPropagatorSet := false }

/-- The OTelProvider struct of provider.go. The sync.Once guard is
modelled by the onceDone flag: the Do body runs only when the flag is
still false. The tracerProvider pointer field is the identity of the
SDK tracer provider, none while nil. -/
structure OTelProvider where
  opts : Options
  tracerProvider : Option Nat
  onceDone : Bool
deriving Repr, DecidableEq

/-- NewOTelProvider of provider.go: applies the options over the
defaults, allocates a fresh OTelProvider value p with a fresh (never
fired) sync.Once, and runs the once body on p: create the exporter
(allocating a new SDK exporter object), create the resource, allocate
the SDK tracer provider combining them, and install it as the global
tracer provider together with the global propagator. Construction
errors are wrapped and returned; the returned cleanup closure (which
only calls Shutdown) is not modelled. -/
def NewOTelProvider (w : ProvWorld) (opts : List GoOption) :
    ProvWorld × Except String OTelProvider :=
  let options := buildOptions opts
  let p : OTelProvider := { opts := options, tracerProvider := none, onceDone := false }
  match createExporter options with
  | .error e => (w, .error ("setup provider failed: create exporter failed: " ++ e))
  | .ok _exporterCfg =>
      match createResource options with
      | .error e => (w, .error ("setup provider failed: create resource failed: " ++ e))
      | .ok _res =>
          let exporterId := w.nextId
          let tracerProviderId := w.nextId + 1
          let w := { w with
                      nextId := w.nextId + 2
                      exportersCreated := w.exportersCreated + 1
                      globalTracerProvider := some tracerProviderId
                      globalPropagatorSet := true }
          let p := { p with tracerProvider := some tracerProviderId, onceDone := true }
          let _ := exporterId
          (w, .ok p)

/-- A tracer handle as returned by TracerProvider.Tracer: it carries
the identity of the provider it came from and its instrumentation
name. -/
structure Tracer where
  providerId : Nat
  instrumentationName : String
deriving Repr, DecidableEq

/-- The Tracer method of OTelProvider (provider.go): calls Tracer on
the underlying SDK tracer provider; when that pointer is nil the call
dereferences nil and panics. -/
def OTelProvider.Tracer (p : OTelProvider) (name : String) : Except GoPanic Tracer :=
  match p.tracerProvider with
  | none => .error .nilPointerDereference
  | some tid => .ok { providerId := tid, instrumentationName := name }

/-- The Shutdown method of OTelProvider (provider.go): when the
tracerProvider field is still nil it returns nil immediately without
touching the SDK; otherwise it delegates to the SDK shutdown, whose
outcome is the external parameter sdkShutdown. -/
def OTelProvider.Shutdown (p : OTelProvider) (sdkShutdown : Nat → Option String) :
    Option String :=
  match p.tracerProvider with
  | none => none
  | some tid => sdkShutdown tid

/-! ## Tracer registry (second file embedded in otel_mysql.go) -/

/-- The package-level tracerRegistry map, name to tracer. -/
def Registry : Type := String → Option Tracer

/-- The registry in its initial (empty) state. -/
def emptyRegistry : Registry := fun _ => none

/-- RegisterTracer: stores the tracer under the name, overwriting any
previous entry; the returned flag records whether the overwrite
warning was logged (an entry already existed). -/
def RegisterTracer (reg : Registry) (name : String) (tracer : Tracer) :
    Registry × Bool :=
  (fun n => if n = name then some tracer else reg n, (reg name).isSome)

/-- GetTracer: returns the registered tracer when present; otherwise
falls back to Provider.Tracer with the name default, where the
argument globalProvider is the package-level Provider variable of
provider.go (a possibly-nil pointer, never assigned anywhere in this
repository). A nil Provider makes the method call dereference nil and
panic. -/
def GetTracer (reg : Registry) (globalProvider : Option OTelProvider)
    (name : String) : Except GoPanic Tracer :=
  match reg name with
  | some tracer => .ok tracer
  | none =>
      match globalProvider with
      | none => .error .nilPointerDereference
      | some p => p.Tracer "default"

/-! ## Spans, contexts and the interception hooks -/

/-- Status code of a span (otel codes.Unset, codes.Ok, codes.Error). -/
inductive SpanStatus where
  | unset
  | ok
  | error
deriving Repr, DecidableEq

/-- Attribute value of a span attribute (string or int forms used by
the hooks). -/
inductive AttrVal where
  | str (s : String)
  | int (n : Int)
deriving Repr, DecidableEq

/-- A span: name, attributes, status with message, recorded errors,
and how many times End has been called on it. -/
structure Span where
  name : String
  attrs : List (String × AttrVal)
  status : SpanStatus
  statusMsg : String
  recordedErrors : List String
  endCount : Nat
deriving Repr, DecidableEq

/-- The SetStatus method of a span. -/
def Span.SetStatus (s : Span) (code : SpanStatus) (msg : String) : Span :=
  { s with status := code, statusMsg := msg }

/-- The RecordError method of a span. -/
def Span.RecordError (s : Span) (e : String) : Span :=
  { s with recordedErrors := s.recordedErrors ++ [e] }

/-- The SetAttributes method of a span (appends attributes). -/
def Span.SetAttributes (s : Span) (more : List (String × AttrVal)) : Span :=
  { s with attrs := s.attrs ++ more }

/-- The End method of a span; endCount counts how often it ran. -/
def Span.End (s : Span) : Span :=
  { s with endCount := s.endCount + 1 }

/-- World counting how many spans have ever been started, so that
"exactly one span is started" is statable. -/
structure TraceWorld where
  spansStarted : Nat
deriving Repr, DecidableEq

/-- A context.Context as the hooks use it: the current otel span
installed by Tracer.Start, the two context values stored under the
dbSpanKey and redisSpanKey keys, and, for the gRPC server context,
the peer address (none models an absent or nil peer) and the incoming
metadata. -/
structure Ctx where
  currentSpan : Option Span
  dbSpan : Option Span
  redisSpan : Option Span
  peer : Option String
  metadata : List (String × List String)
deriving Repr, DecidableEq

/-- A context carrying nothing (background context). -/
def emptyCtx : Ctx :=
  { currentSpan := none, dbSpan := none, redisSpan := none
    peer := none, metadata := [] }

/-- The Start method of a tracer: begins exactly one new span with the
given name and attributes, installs it as the current span of the
returned context, and returns the span. -/
def Tracer.Start (t : Tracer) (w : TraceWorld) (ctx : Ctx) (name : String)
    (attrs : List (String × AttrVal)) : TraceWorld × Ctx × Span :=
  let span : Span :=
    { name := name, attrs := attrs, status := .unset, statusMsg := ""
      recordedErrors := [], endCount := 0 }
  let _ := t
  ({ spansStarted := w.spansStarted + 1 }, { ctx with currentSpan := some span }, span)

/-! ## otel_redis.go -/

/-- A redis command as the hook sees it: its lowercase name, its full
rendered text, and the error left on it by execution (none when the
command succeeded). -/
structure RedisCmd where
  name : String
  rendered : String
  err : Option String
deriving Repr, DecidableEq

/-- The distinguished redis.Nil error (key-missing sentinel), modelled
by its message; the hook compares the command error against it. -/
def redisNil : String := "redis: nil"

/-- The RedisHook struct of otel_redis.go. -/
structure RedisHook where
  tracer : Tracer
deriving Repr, DecidableEq

/-- BeforeProcess of otel_redis.go: starts a span named after the
command with the db attributes and stores it in the returned context
under the redisSpanKey key; always returns a nil error. -/
def RedisHook.BeforeProcess (h : RedisHook) (w : TraceWorld) (ctx : Ctx)
    (cmd : RedisCmd) : TraceWorld × Ctx × Option String :=
  let spanName := "redis." ++ cmd.name
  let (w, ctx, span) := h.tracer.Start w ctx spanName
    [("db.system", .str "redis"),
     ("db.operation", .str cmd.name),
     ("db.statement", .str cmd.rendered)]
  (w, { ctx with redisSpan := some span }, none)

/-- AfterProcess of otel_redis.go: when the context carries a span
under the redisSpanKey key, records the command error and sets status
error with its message — unless the error is nil or redis.Nil — and
then ends the span (the End call is deferred, hence runs last and
unconditionally). Returns the final state of that span together with
the returned (always nil) error. -/
def RedisHook.AfterProcess (h : RedisHook) (ctx : Ctx) (cmd : RedisCmd) :
    Option Span × Option String :=
  let _ := h
  match ctx.redisSpan with
  | none => (none, none)
  | some span =>
      let span :=
        match cmd.err with
        | some e => if e ≠ redisNil then (span.RecordError e).SetStatus .error e else span
        | none => span
      (some span.End, none)

/-- One full BeforeProcess/AfterProcess pair around one intercepted
redis command, the after hook receiving the context produced by the
before hook; yields the final world and the final span. -/
def RedisHook.processPair (h : RedisHook) (w : TraceWorld) (ctx : Ctx)
    (cmd : RedisCmd) : TraceWorld × Option Span :=
  let (w, ctx, _berr) := h.BeforeProcess w ctx cmd
  let (span, _aerr) := h.AfterProcess ctx cmd
  (w, span)

/-- A net connection handle (opaque), for the dial hook type. -/
structure NetConn where
  fd : Nat
deriving Repr, DecidableEq

/-- Type of go-redis v9 dial hook functions. -/
def DialHookFn : Type := Ctx → String → String → Except String NetConn

/-- Type of go-redis v9 process hook functions. -/
def ProcessHookFn : Type := Ctx → RedisCmd → Option String

/-- Type of go-redis v9 pipeline process hook functions. -/
def ProcessPipelineHookFn : Type := Ctx → List RedisCmd → Option String

/-- DialHook of otel_redis.go (v9 interface): returns next unchanged. -/
def RedisHook.DialHook (h : RedisHook) (next : DialHookFn) : DialHookFn :=
  let _ := h
  next

/-- ProcessHook of otel_redis.go (v9 interface): returns next
unchanged. -/
def RedisHook.ProcessHook (h : RedisHook) (next : ProcessHookFn) : ProcessHookFn :=
  let _ := h
  next

/-- ProcessPipelineHook of otel_redis.go (v9 interface): returns next
unchanged. -/
def RedisHook.ProcessPipelineHook (h : RedisHook) (next : ProcessPipelineHookFn) :
    ProcessPipelineHookFn :=
  let _ := h
  next

/-! ## otel_mysql.go (GORM hook) -/

/-- The statement of a GORM database operation: the resolved schema
(none models a nil Statement.Schema, as for raw SQL or row queries;
some table carries Schema.Table), the rendered SQL text, and the
statement context. -/
structure GormStatement where
  schemaTable : Option String
  sql : String
  ctx : Ctx
deriving Repr, DecidableEq

/-- The GORM db handle as the callbacks see it: its statement and the
error left by the operation (nil while none). -/
structure GormDB where
  stmt : GormStatement
  err : Option String
deriving Repr, DecidableEq

/-- The GormTracingHook struct of otel_mysql.go. -/
structure GormTracingHook where
  tracer : Tracer
deriving Repr, DecidableEq

/-- The before callback of otel_mysql.go: computes the span name
(gorm.Table when the schema is resolved, plain gorm otherwise), then
starts the span with the db attributes — whose db.operation value
dereferences db.Statement.Schema.Table unconditionally, so a nil
schema panics while the attribute list is being evaluated — and
stores the span in the statement context under the dbSpanKey key. -/
def GormTracingHook.before (h : GormTracingHook) (w : TraceWorld) (db : GormDB) :
    Except GoPanic (TraceWorld × GormDB) :=
  let spanName :=
    match db.stmt.schemaTable with
    | some table => "gorm." ++ table
    | none => "gorm"
  match db.stmt.schemaTable with
  | none => .error .nilPointerDereference
  | some table =>
      let (w, ctx, span) := h.tracer.Start w db.stmt.ctx spanName
        [("db.system", .str "mysql"),
         ("db.operation", .str table),
         ("db.statement", .str db.stmt.sql)]
      .ok (w, { db with stmt := { db.stmt with ctx := { ctx with dbSpan := some span } } })

/-- The after callback of otel_mysql.go: when the statement context
carries a span under the dbSpanKey key, records the db error and sets
status error with its message when the error is non-nil, and ends the
span (deferred End, hence last and unconditional). Returns the final
state of that span. -/
def GormTracingHook.after (h : GormTracingHook) (db : GormDB) : Option Span :=
  let _ := h
  match db.stmt.ctx.dbSpan with
  | none => none
  | some span =>
      let span :=
        match db.err with
        | some e => (span.RecordError e).SetStatus .error e
        | none => span
      some span.End

/-- One full before/after callback pair around one GORM operation:
the before callback runs on the pre-call db, the operation leaves
callErr as the db error, and the after callback runs on the resulting
db. -/
def GormTracingHook.callbackPair (h : GormTracingHook) (w : TraceWorld)
    (db : GormDB) (callErr : Option String) :
    Except GoPanic (TraceWorld × Option Span) :=
  match h.before w db with
  | .error p => .error p
  | .ok (w, db2) => .ok (w, h.after { db2 with err := callErr })

/-! ## example/grpc/main.go (unary interceptor) -/

/-- The grpc.UnaryServerInfo record (only its FullMethod is used). -/
structure UnaryServerInfo where
  fullMethod : String
deriving Repr, DecidableEq

/-- status.FromError followed by Message: errors are modelled by
their gRPC status message strings, so this is the identity on the
message. -/
def statusMessageOf (e : String) : String := e

/-- TracingInterceptor of example/grpc/main.go: reads the peer from
the context (panicking on a nil peer, since the ok flag is ignored
and p.Addr is dereferenced), starts the grpc span with the rpc
attributes, copies the first value of each metadata entry onto the
span (the map iteration is modelled in list order), invokes the
wrapped handler with the span-enriched context, records the elapsed
duration (the wall-clock reading is the external parameter elapsed),
sets status error with the status message and records the error when
the handler failed, sets status ok otherwise, and returns the handler
response and error unchanged; the deferred End runs last. -/
def TracingInterceptor {Req Resp : Type} (tracer : Tracer) (w : TraceWorld)
    (ctx : Ctx) (req : Req) (info : UnaryServerInfo)
    (handler : Ctx → Req → Option Resp × Option String) (elapsed : String) :
    Except GoPanic (TraceWorld × Span × Option Resp × Option String) :=
  match ctx.peer with
  | none => .error .nilPointerDereference
  | some peerAddr =>
      let spanName := "grpc." ++ info.fullMethod
      let (w, ctx2, span) := tracer.Start w ctx spanName
        [("rpc.system", .str "grpc"),
         ("rpc.method", .str info.fullMethod),
         ("peer.address", .str peerAddr)]
      let span := ctx.metadata.foldl
        (fun sp kv =>
          match kv.2 with
          | [] => sp
          | v :: _ => sp.SetAttributes [("rpc.metadata." ++ kv.1, .str v)]) span
      let hres := handler { ctx2 with currentSpan := some span } req
      let span := span.SetAttributes [("rpc.duration", .str elapsed)]
      let span :=
        match hres.2 with
        | some e => (span.SetStatus .error (statusMessageOf e)).RecordError e
        | none => span.SetStatus .ok "success"
      .ok (w, span.End, hres.1, hres.2)

/-! ## Shared concrete fixtures for witnesses and counterexamples -/

/-- A concrete tracer handle used by witness instances. -/
def tracer0 : Tracer := { providerId := 0, instrumentationName := "test" }

/-- A concrete trace world used by witness instances. -/
def world0 : TraceWorld := { spansStarted := 0 }

/-- A concrete gRPC server context carrying a peer address. -/
def peerCtx : Ctx := { emptyCtx with peer := some "1.2.3.4:5678" }

/-- A concrete handler failing with the message not found. -/
def notFoundHandler : Ctx → String → Option String × Option String :=
  fun _ _ => (none, some "not found")

/-! ## Claim theorems -/

/-- Claim C8 (confirmed): for every option sequence and every field of
the settings record, the value of that field after applying the
sequence in order over the defaults equals the value written by the
last option of the sequence touching that field (the default when no
option touches it): the last option setting a field wins. -/
theorem C8_last_option_wins (opts : List GoOption) (f : Field) :
    getField (buildOptions opts) f = lastWritten f opts (getField defaultOptions f) :=
  getField_foldl opts defaultOptions f

/-- Claim C9 (confirmed): the configuration builder applied to the
empty option list yields the documented defaults: service name
unknown-service, protocol grpc, endpoint localhost:4317, insecure
true, sampling ratio 1.0, batch timeout 5 s, export timeout 30 s, max
export batch size 512, max queue size 2048. -/
theorem C9_defaults :
    (buildOptions []).serviceName = "unknown-service" ∧
    (buildOptions []).protocol = ProtocolGRPC ∧
    (buildOptions []).endpoint = "localhost:4317" ∧
    (buildOptions []).insecure = true ∧
    (buildOptions []).samplingRatio = 1 ∧
    (buildOptions []).batchTimeout = 5 * goSecond ∧
    (buildOptions []).exportTimeout = 30 * goSecond ∧
    (buildOptions []).maxExportBatchSize = 512 ∧
    (buildOptions []).maxQueueSize = 2048 :=
  ⟨rfl, rfl, rfl, rfl, rfl, rfl, rfl, rfl, rfl⟩

/-- Claim C10 (confirmed): calling Shutdown on a provider whose
tracer-provider was never initialized returns no error and never
reaches the SDK shutdown, whatever that shutdown would have
returned. -/
theorem C10_shutdown_uninitialized (p : OTelProvider) (sdkShutdown : Nat → Option String)
    (h : p.tracerProvider = none) : p.Shutdown sdkShutdown = none := by
  unfold OTelProvider.Shutdown
  rw [h]

/-- Witness for C10 at a concrete uninitialized provider and an SDK
shutdown that would fail. -/
theorem C10_shutdown_uninitialized_witness :
    ({ opts := defaultOptions, tracerProvider := none, onceDone := false } : OTelProvider).tracerProvider = none ∧
    ({ opts := defaultOptions, tracerProvider := none, onceDone := false } : OTelProvider).Shutdown
      (fun _ => some "forced shutdown failure") = none :=
  ⟨rfl, C10_shutdown_uninitialized _ _ rfl⟩

/-- Claim C2 counterexample: in the state the repository itself
produces — empty registry and the package-level Provider variable
still nil, since no code in the repository ever assigns it —
GetTracer on an unregistered name panics with a nil-pointer
dereference instead of returning the fallback default tracer. -/
theorem C2_counterexample :
    emptyRegistry "user-service" = none ∧
    GetTracer emptyRegistry none "user-service" =
      Except.error GoPanic.nilPointerDereference :=
  ⟨rfl, rfl⟩

/-- Claim C2 (corrected): for every name absent from the registry,
GetTracer returns the fallback tracer named default from the global
provider singleton, provided that singleton has been assigned and its
tracer-provider initialized; with a nil singleton (its initial value,
never assigned in this repository) the fallback panics. -/
theorem C2_get_unregistered_falls_back (reg : Registry) (gp : Option OTelProvider)
    (name : String) (p : OTelProvider) (tid : Nat)
    (hreg : reg name = none) (hgp : gp = some p) (htp : p.tracerProvider = some tid) :
    GetTracer reg gp name = Except.ok { providerId := tid, instrumentationName := "default" } := by
  simp only [GetTracer, OTelProvider.Tracer, hreg, hgp, htp]

/-- Witness for the corrected C2 at a concrete initialized singleton
and a concrete unregistered name. -/
theorem C2_get_unregistered_falls_back_witness :
    emptyRegistry "user-service" = none ∧
    GetTracer emptyRegistry
      (some { opts := defaultOptions, tracerProvider := some 1, onceDone := true }) "user-service" =
      Except.ok { providerId := 1, instrumentationName := "default" } :=
  ⟨rfl, C2_get_unregistered_falls_back emptyRegistry _ "user-service" _ 1 rfl rfl rfl⟩

/-- Claim C6 (confirmed): the three go-redis v9 hook methods DialHook,
ProcessHook and ProcessPipelineHook each return their next argument
unchanged, so dispatch through the v9 hook interface receives no span
creation or annotation from them. -/
theorem C6_v9_hooks_identity :
    ∀ (h : RedisHook) (dnext : DialHookFn) (pnext : ProcessHookFn)
      (ppnext : ProcessPipelineHookFn),
      h.DialHook dnext = dnext ∧ h.ProcessHook pnext = pnext ∧
      h.ProcessPipelineHook ppnext = ppnext :=
  fun _ _ _ _ => ⟨rfl, rfl, rfl⟩

/-- Claim C7 (code bug): on a GORM operation whose statement has no
resolved schema (raw SQL), the before callback does not complete: the
db.operation attribute dereferences the nil Schema pointer and the
callback panics, although the span-name computation right above it
explicitly handles the nil-schema case. -/
theorem C7_nil_schema_panics :
    ({ tracer := tracer0 } : GormTracingHook).before world0
      { stmt := { schemaTable := none, sql := "SELECT 1", ctx := emptyCtx }, err := none } =
      Except.error GoPanic.nilPointerDereference :=
  rfl

/-- Shape of a successful NewOTelProvider call: the returned provider
holds a freshly allocated tracer provider (identity nextId + 1, the
exporter having identity nextId), the allocation counter advances by
two, and exactly one more exporter exists. -/
theorem NewOTelProvider_ok_shape (w : ProvWorld) (opts : List GoOption) (p : OTelProvider)
    (h : (NewOTelProvider w opts).2 = Except.ok p) :
    p.tracerProvider = some (w.nextId + 1) ∧
    (NewOTelProvider w opts).1.nextId = w.nextId + 2 ∧
    (NewOTelProvider w opts).1.exportersCreated = w.exportersCreated + 1 := by
  cases hc : createExporter (buildOptions opts) with
  | error e =>
      simp [NewOTelProvider, hc] at h
  | ok cfg =>
      simp only [NewOTelProvider, createResource, hc, Except.ok.injEq] at h ⊢
      subst h
      refine ⟨?_, ?_, ?_⟩ <;> first
        | rfl
        | trivial

/-- Claim C1 counterexample: calling NewOTelProvider twice with the
same (empty) option list from the initial world yields two providers
whose tracer-provider instances are distinct (identities 1 and 3) and
leaves two created exporters, not one: the second call is not a
no-op. -/
theorem C1_counterexample :
    (NewOTelProvider initialProvWorld []).2 =
      Except.ok { opts := defaultOptions, tracerProvider := some 1, onceDone := true } ∧
    (NewOTelProvider (NewOTelProvider initialProvWorld []).1 []).2 =
      Except.ok { opts := defaultOptions, tracerProvider := some 3, onceDone := true } ∧
    (NewOTelProvider (NewOTelProvider initialProvWorld []).1 []).1.exportersCreated = 2 ∧
    (some 3 : Option Nat) ≠ some 1 :=
  ⟨rfl, rfl, rfl, by decide⟩

/-- Claim C1 (corrected): every NewOTelProvider call allocates a fresh
provider value with its own never-fired run-once guard, so the guard
never suppresses the construction work of a later call: whenever two
successive calls both succeed, the second creates a second exporter
(the exporter count grows by two over the two calls) and returns a
tracer-provider instance distinct from the first. The run-once guard
makes construction idempotent only per OTelProvider value, not per
process. -/
theorem C1_second_call_allocates_again (w : ProvWorld) (opts1 opts2 : List GoOption)
    (p1 p2 : OTelProvider)
    (h1 : (NewOTelProvider w opts1).2 = Except.ok p1)
    (h2 : (NewOTelProvider (NewOTelProvider w opts1).1 opts2).2 = Except.ok p2) :
    p1.tracerProvider ≠ p2.tracerProvider ∧
    (NewOTelProvider (NewOTelProvider w opts1).1 opts2).1.exportersCreated =
      w.exportersCreated + 2 := by
  obtain ⟨hp1, hn1, he1⟩ := NewOTelProvider_ok_shape w opts1 p1 h1
  obtain ⟨hp2, hn2, he2⟩ := NewOTelProvider_ok_shape _ opts2 p2 h2
  constructor
  · rw [hp1, hp2, hn1]
    simp only [ne_eq, Option.some.injEq]
    omega
  · rw [he2, he1]

/-- Witness for the corrected C1 at the initial world and empty option
lists. -/
theorem C1_second_call_allocates_again_witness :
    ({ opts := defaultOptions, tracerProvider := some 1, onceDone := true } : OTelProvider).tracerProvider ≠
      ({ opts := defaultOptions, tracerProvider := some 3, onceDone := true } : OTelProvider).tracerProvider ∧
    (NewOTelProvider (NewOTelProvider initialProvWorld []).1 []).1.exportersCreated =
      initialProvWorld.exportersCreated + 2 :=
  C1_second_call_allocates_again initialProvWorld [] []
    { opts := defaultOptions, tracerProvider := some 1, onceDone := true }
    { opts := defaultOptions, tracerProvider := some 3, onceDone := true }
    rfl rfl

/-- A concrete GORM db handle with a resolved schema. -/
def gormDB0 : GormDB :=
  { stmt := { schemaTable := some "users", sql := "INSERT INTO users", ctx := emptyCtx }
    err := none }

/-- Claim C3 counterexample: a redis command that succeeds — no error
on the command — leaves the span with status unset after the full
before/after pair: the after hook does not set the status to ok on
success. -/
theorem C3_counterexample :
    ((({ tracer := tracer0 } : RedisHook)).processPair world0 emptyCtx
        { name := "get", rendered := "get key", err := none }).2.map Span.status =
      some SpanStatus.unset ∧
    SpanStatus.unset ≠ SpanStatus.ok :=
  ⟨rfl, by decide⟩

/-- Claim C3 (corrected): on a failing wrapped call the after hooks
record the error and set the span status to error carrying the error
message — the redis hook excepting the redis.Nil sentinel, which it
treats like success — but on a successful call both after hooks leave
the span status unset rather than setting it to ok. -/
theorem C3_status_behaviour :
    (∀ (h : RedisHook) (w : TraceWorld) (ctx : Ctx) (cmd : RedisCmd) (e : String),
        cmd.err = some e → e ≠ redisNil →
        ((h.processPair w ctx cmd).2.map Span.status = some SpanStatus.error ∧
         (h.processPair w ctx cmd).2.map Span.statusMsg = some e ∧
         (h.processPair w ctx cmd).2.map Span.recordedErrors = some [e])) ∧
    (∀ (h : RedisHook) (w : TraceWorld) (ctx : Ctx) (cmd : RedisCmd),
        cmd.err = none ∨ cmd.err = some redisNil →
        (h.processPair w ctx cmd).2.map Span.status = some SpanStatus.unset) ∧
    (∀ (g : GormTracingHook) (w : TraceWorld) (db : GormDB) (table : String) (e : String),
        db.stmt.schemaTable = some table →
        ∃ w2 sp, g.callbackPair w db (some e) = Except.ok (w2, some sp) ∧
          sp.status = SpanStatus.error ∧ sp.statusMsg = e ∧ sp.recordedErrors = [e]) ∧
    (∀ (g : GormTracingHook) (w : TraceWorld) (db : GormDB) (table : String),
        db.stmt.schemaTable = some table →
        ∃ w2 sp, g.callbackPair w db none = Except.ok (w2, some sp) ∧
          sp.status = SpanStatus.unset) := by
  refine ⟨?_, ?_, ?_, ?_⟩
  · intro h w ctx cmd e hce hne
    simp only [RedisHook.processPair, RedisHook.BeforeProcess, RedisHook.AfterProcess,
      Tracer.Start, hce, hne, ne_eq, not_false_eq_true, if_true,
      Span.RecordError, Span.SetStatus, Span.End, Option.map_some]
    exact ⟨rfl, rfl, rfl⟩
  · intro h w ctx cmd hce
    rcases hce with hce | hce <;>
      simp [RedisHook.processPair, RedisHook.BeforeProcess, RedisHook.AfterProcess,
        Tracer.Start, hce, Span.End]
  · intro g w db table e hst
    simp only [GormTracingHook.callbackPair, GormTracingHook.before, GormTracingHook.after,
      Tracer.Start, hst, Span.RecordError, Span.SetStatus, Span.End]
    exact ⟨_, _, rfl, rfl, rfl, rfl⟩
  · intro g w db table hst
    simp only [GormTracingHook.callbackPair, GormTracingHook.before, GormTracingHook.after,
      Tracer.Start, hst, Span.End]
    exact ⟨_, _, rfl, rfl⟩

/-- Witness for the corrected C3 at concrete failing and succeeding
redis commands and GORM operations. -/
theorem C3_status_behaviour_witness :
    (((({ tracer := tracer0 } : RedisHook)).processPair world0 emptyCtx
        { name := "set", rendered := "set k v", err := some "connection refused" }).2.map Span.status =
        some SpanStatus.error ∧
      ((({ tracer := tracer0 } : RedisHook)).processPair world0 emptyCtx
        { name := "set", rendered := "set k v", err := some "connection refused" }).2.map Span.statusMsg =
        some "connection refused" ∧
      ((({ tracer := tracer0 } : RedisHook)).processPair world0 emptyCtx
        { name := "set", rendered := "set k v", err := some "connection refused" }).2.map Span.recordedErrors =
        some ["connection refused"]) ∧
    ((({ tracer := tracer0 } : RedisHook)).processPair world0 emptyCtx
        { name := "get", rendered := "get k", err := some redisNil }).2.map Span.status =
      some SpanStatus.unset ∧
    (∃ w2 sp, ({ tracer := tracer0 } : GormTracingHook).callbackPair world0 gormDB0
        (some "duplicate key") = Except.ok (w2, some sp) ∧
        sp.status = SpanStatus.error ∧ sp.statusMsg = "duplicate key" ∧
        sp.recordedErrors = ["duplicate key"]) ∧
    (∃ w2 sp, ({ tracer := tracer0 } : GormTracingHook).callbackPair world0 gormDB0 none =
        Except.ok (w2, some sp) ∧ sp.status = SpanStatus.unset) :=
  ⟨C3_status_behaviour.1 _ world0 emptyCtx _ "connection refused" rfl (by decide),
   C3_status_behaviour.2.1 _ world0 emptyCtx _ (Or.inr rfl),
   C3_status_behaviour.2.2.1 _ world0 gormDB0 "users" "duplicate key" rfl,
   C3_status_behaviour.2.2.2 _ world0 gormDB0 "users" rfl⟩

/-- Claim C4 (confirmed): every before/after pair — the after hook
receiving the context the before hook produced — starts exactly one
span and ends that span exactly once, for every command or db error
outcome of the wrapped call; for the GORM pair this holds whenever
the statement carries a resolved schema (otherwise the before
callback panics, see the C7 bug). -/
theorem C4_one_span_started_one_ended :
    (∀ (h : RedisHook) (w : TraceWorld) (ctx : Ctx) (cmd : RedisCmd),
        (h.processPair w ctx cmd).1.spansStarted = w.spansStarted + 1 ∧
        (h.processPair w ctx cmd).2.map Span.endCount = some 1) ∧
    (∀ (g : GormTracingHook) (w : TraceWorld) (db : GormDB) (callErr : Option String),
        db.stmt.schemaTable ≠ none →
        ∃ w2 sp, g.callbackPair w db callErr = Except.ok (w2, some sp) ∧
          w2.spansStarted = w.spansStarted + 1 ∧ sp.endCount = 1) := by
  constructor
  · intro h w ctx cmd
    refine ⟨rfl, ?_⟩
    cases hce : cmd.err with
    | none =>
        simp [RedisHook.processPair, RedisHook.BeforeProcess, RedisHook.AfterProcess,
          Tracer.Start, hce, Span.End]
    | some e =>
        by_cases hne : e = redisNil <;>
          simp [RedisHook.processPair, RedisHook.BeforeProcess, RedisHook.AfterProcess,
            Tracer.Start, hce, hne, Span.End, Span.RecordError, Span.SetStatus]
  · intro g w db callErr hschema
    cases hst : db.stmt.schemaTable with
    | none => exact absurd hst hschema
    | some table =>
        cases callErr with
        | none =>
            simp only [GormTracingHook.callbackPair, GormTracingHook.before,
              GormTracingHook.after, Tracer.Start, hst, Span.End]
            exact ⟨_, _, rfl, rfl, rfl⟩
        | some e =>
            simp only [GormTracingHook.callbackPair, GormTracingHook.before,
              GormTracingHook.after, Tracer.Start, hst, Span.End, Span.RecordError,
              Span.SetStatus]
            exact ⟨_, _, rfl, rfl, rfl⟩

/-- Witness for C4 at a concrete redis command carrying an error and
a concrete GORM operation carrying an error. -/
theorem C4_one_span_started_one_ended_witness :
    ((({ tracer := tracer0 } : RedisHook)).processPair world0 emptyCtx
        { name := "get", rendered := "get k", err := some "connection refused" }).1.spansStarted =
      world0.spansStarted + 1 ∧
    ((({ tracer := tracer0 } : RedisHook)).processPair world0 emptyCtx
        { name := "get", rendered := "get k", err := some "connection refused" }).2.map Span.endCount =
      some 1 ∧
    (∃ w2 sp, ({ tracer := tracer0 } : GormTracingHook).callbackPair world0 gormDB0
        (some "duplicate key") = Except.ok (w2, some sp) ∧
        w2.spansStarted = world0.spansStarted + 1 ∧ sp.endCount = 1) :=
  ⟨(C4_one_span_started_one_ended.1 _ world0 emptyCtx _).1,
   (C4_one_span_started_one_ended.1 _ world0 emptyCtx _).2,
   C4_one_span_started_one_ended.2 _ world0 gormDB0 (some "duplicate key") (by decide)⟩

/-- Claim C5 (confirmed): the gRPC unary interceptor returns to its
caller exactly the response and error pair produced by the wrapped
handler on the span-enriched context — it never suppresses or alters
the handler error — for every handler and every outcome, whenever the
incoming server context carries a peer. -/
theorem C5_interceptor_passthrough (Req Resp : Type) (tracer : Tracer) (w : TraceWorld)
    (ctx : Ctx) (req : Req) (info : UnaryServerInfo)
    (handler : Ctx → Req → Option Resp × Option String) (elapsed : String)
    (peerAddr : String) (hp : ctx.peer = some peerAddr) :
    ∃ w2 sp enriched, TracingInterceptor tracer w ctx req info handler elapsed =
      Except.ok (w2, sp, (handler enriched req).1, (handler enriched req).2) := by
  simp only [TracingInterceptor, hp, Tracer.Start]
  exact ⟨_, _, _, rfl⟩

/-- Witness for C5 at a concrete handler failing with not found. -/
theorem C5_interceptor_passthrough_witness :
    ∃ w2 sp enriched,
      TracingInterceptor tracer0 world0 peerCtx "ping" { fullMethod := "/demo.Svc/Get" }
          notFoundHandler "2ms" =
        Except.ok (w2, sp, (notFoundHandler enriched "ping").1,
          (notFoundHandler enriched "ping").2) :=
  C5_interceptor_passthrough String String tracer0 world0 peerCtx "ping"
    { fullMethod := "/demo.Svc/Get" } notFoundHandler "2ms" "1.2.3.4:5678" rfl

end TaurusOtel
